import Mathlib

/-!
Verification development for the vizier repository excerpt: the
multi-objective scalarization helpers (`scalarizing_designer`) and the
algorithm comparison harness (`comparator_runner`).

The embedding is shallow: Python floats become rationals (ℚ), Python ints
become ℤ, raised exceptions become `Except` error values, a Python crash
(IndexError / KeyError on external data) becomes an outer `Option.none`,
and the side effect of executing a benchmark run is counted explicitly.
-/

namespace Vizier.ScalarizingDesigner

/-- A metric's optimization goal, mirroring `vz.ObjectiveMetricGoal`. -/
inductive ObjectiveMetricGoal where
  | MAXIMIZE
  | MINIMIZE
deriving DecidableEq

/-- Declares a metric's name and goal, mirroring `vz.MetricInformation`. -/
structure MetricInformation where
  name : String
  goal : ObjectiveMetricGoal
deriving DecidableEq

/-- A metric value as stored on a measurement: either a proper number or the
floating-point NaN, which the scalarizing layer uses to mark missing data. -/
inductive MetricValue where
  | nan
  | val (q : ℚ)
deriving DecidableEq

/-- The numeric content of a metric value; `none` for NaN, so that any
arithmetic consuming a NaN input yields NaN, as with floats. -/
def MetricValue.toRat? : MetricValue → Option ℚ
  | MetricValue.nan => none
  | MetricValue.val q => some q

/-- A final measurement: a finite mapping from metric name to value,
represented as an association list where the first binding wins. -/
structure Measurement where
  metrics : List (String × MetricValue)
deriving DecidableEq

/-- A completed trial always carries a final measurement. -/
structure CompletedTrial where
  final_measurement : Measurement
deriving DecidableEq

/-- First-binding association-list lookup for measurement metrics. -/
def findMetric (name : String) : List (String × MetricValue) → Option MetricValue
  | [] => none
  | (k, v) :: rest => if k = name then some v else findMetric name rest

/-- Modelled from the spec: the body of `LinearScalarization` is not under
src/ (only its test is); section 4.1 fixes it as `score = dot(weights,
values)`, a weighted sum over the paired coordinates of the weight and value
vectors. -/
def LinearScalarization : List ℚ → List ℚ → ℚ
  | w :: ws, v :: vs => w * v + LinearScalarization ws vs
  | _, _ => 0

/-- The mathematical dot product, stated in the spec's own words
(`dot(w, v)`), used as the reference side of the refinement claim about
`LinearScalarization`. -/
def dotProduct (w v : List ℚ) : ℚ :=
  (List.zipWith (fun a b => a * b) w v).sum

/-- Modelled from the spec: the body of `HyperVolumeScalarization` is not
under src/ (only its test is). The spec leaves the combination rule pinned
only by the confirmed reference example (weights [0.1, 0.2] and values
[3.0, 4.5] give 22.5), which determines the minimum of the coordinatewise
ratios values_i / weights_i. -/
def HyperVolumeScalarization (weights values : List ℚ) : ℚ :=
  listMin (List.zipWith (fun v w => v / w) values weights)
where
  listMin : List ℚ → ℚ
    | [] => 0
    | [x] => x
    | x :: y :: rest => min x (listMin (y :: rest))

/-- Goal normalization used before scalarizing: minimize-goal metrics are
negated so that larger is uniformly better (spec section 4.2). -/
def goalSigned (g : ObjectiveMetricGoal) (q : ℚ) : ℚ :=
  match g with
  | ObjectiveMetricGoal.MAXIMIZE => q
  | ObjectiveMetricGoal.MINIMIZE => -q

/-- Collects the goal-normalized values of every declared metric from a
measurement; `none` as soon as some declared metric is absent or NaN. -/
def collectMetricValues : List MetricInformation → Measurement → Option (List ℚ)
  | [], _ => some []
  | mi :: rest, m =>
    ((findMetric mi.name m.metrics).bind MetricValue.toRat?).bind fun q =>
      (collectMetricValues rest m).map fun qs => goalSigned mi.goal q :: qs

/-- Modelled from the spec: `ScalarizingDesigner.update`'s scalarized value
for one completed trial (spec section 4.2). If every declared metric is
present (and numeric) the scalarization of the goal-normalized vector is
used; otherwise the value is NaN, propagated rather than raised. -/
def scalarizedValue (info : List MetricInformation) (scalarization : List ℚ → ℚ)
    (m : Measurement) : MetricValue :=
  match collectMetricValues info m with
  | none => MetricValue.nan
  | some vs => MetricValue.val (scalarization vs)

/-- Modelled from the spec: the in-place mutation `update` performs on one
completed trial — attach the derived metric named `scalarized` to the final
measurement. Prepending realises the overwrite semantics of a dict store
under first-binding lookup. -/
def updateTrial (info : List MetricInformation) (scalarization : List ℚ → ℚ)
    (t : CompletedTrial) : CompletedTrial :=
  ⟨⟨("scalarized", scalarizedValue info scalarization t.final_measurement) ::
    t.final_measurement.metrics⟩⟩

/-- Modelled from the spec: `ScalarizingDesigner.update` over the completed
trials — every completed trial gets its scalarized metric attached, and the
resulting (mutated) trial list is what is forwarded to the wrapped
designer's `update` (active trials pass through unmodified; the wrapped
designer itself is an external collaborator). -/
def update (info : List MetricInformation) (scalarization : List ℚ → ℚ)
    (completed : List CompletedTrial) : List CompletedTrial :=
  completed.map (updateTrial info scalarization)

end Vizier.ScalarizingDesigner

namespace Vizier.ComparatorRunner

/-- A metric's optimization goal. -/
inductive ObjectiveMetricGoal where
  | MAXIMIZE
  | MINIMIZE
deriving DecidableEq

/-- Declares a metric's name and goal. -/
structure MetricInformation where
  name : String
  goal : ObjectiveMetricGoal
deriving DecidableEq

/-- A problem statement: the ordered set of declared metrics. -/
structure ProblemStatement where
  metric_information : List MetricInformation
deriving DecidableEq

/-- A final measurement in the comparator harness: metric name to value. -/
structure Measurement where
  metrics : List (String × ℚ)
deriving DecidableEq

/-- A trial as the comparison harness sees it: its final measurement. -/
structure Trial where
  final_measurement : Measurement
deriving DecidableEq

/-- First-binding association-list lookup; `none` models Python's KeyError
site on `measurement.metrics[name]`. -/
def findMetric (name : String) : List (String × ℚ) → Option ℚ
  | [] => none
  | (k, v) :: rest => if k = name then some v else findMetric name rest

/-- A convergence curve: best-so-far objective value against cumulative
trial budget. -/
abbrev ConvergenceCurve := List (ℚ × ℚ)

/-- One benchmark state of the efficiency comparison, summarized by the data
the tester reads from it: `experimenter.problem_statement()` and the
convergence curve `ConvergenceCurveConverter(metric).convert(GetTrials())`
extracts once the runner has populated the state (runner and converter are
external collaborators imported from `vizier.benchmarks`). -/
structure BenchmarkState where
  problem_statement : ProblemStatement
  curve : ConvergenceCurve
deriving DecidableEq

/-- A benchmark state factory: invoked once per repeat (`make i` is the
state produced by the i-th invocation); `description` stands for the
factory's formatted representation used in error messages. -/
structure BenchmarkStateFactory where
  description : String
  make : ℕ → BenchmarkState

/-- The efficiency tester's configuration (`num_trials`, `num_repeats`). -/
structure EfficiencyComparisonTester where
  num_trials : Int
  num_repeats : Int
deriving DecidableEq

/-- Construction of `EfficiencyComparisonTester`: the attrs validators only
check that both fields are ints, which the typing guarantees, so
construction never fails and involves no problem statements. -/
def EfficiencyComparisonTester.mk? (num_trials num_repeats : Int) :
    Option EfficiencyComparisonTester :=
  some ⟨num_trials, num_repeats⟩

/-- The exceptions `assert_better_efficiency` can raise. The first two model
the Python `ValueError`s (multimetric unsupported, and baseline vs candidate
statement mismatch); the third models `FailedComparisonTestError`, whose
message carries the score, the threshold, both factory descriptions and the
tester's trial/repeat counts. -/
inductive EffError where
  | multimetricNotSupported
  | differentStatements (baseline candidate : ProblemStatement)
  | failedComparisonTest (log_eff_score score_threshold : ℚ)
      (candidate_description baseline_description : String)
      (num_trials num_repeats : Int)
deriving DecidableEq

/-- One iteration of the repeat loop of `assert_better_efficiency`, up to
and including the pair of `runner.run` calls: build both states, check the
baseline statement is single-metric, check the statements are identical,
then run both benchmarks and extract their curves. -/
def effRepeatStep (baseline_factory candidate_factory : BenchmarkStateFactory)
    (i : ℕ) : Except EffError (ConvergenceCurve × ConvergenceCurve) :=
  let baseline_state := baseline_factory.make i
  let candidate_state := candidate_factory.make i
  let baseline_statement := baseline_state.problem_statement
  let candidate_statement := candidate_state.problem_statement
  if baseline_statement.metric_information.length > 1 then
    Except.error EffError.multimetricNotSupported
  else if baseline_statement ≠ candidate_statement then
    Except.error (EffError.differentStatements baseline_statement candidate_statement)
  else
    Except.ok (baseline_state.curve, candidate_state.curve)

/-- The repeat loop of `assert_better_efficiency` over the first `n`
repeats, accumulating the baseline and candidate curve lists. The second
component counts the `runner.run` calls executed (two per successful
repeat, zero in a repeat whose checks raise); an error aborts the loop. -/
def effLoop (baseline_factory candidate_factory : BenchmarkStateFactory) :
    ℕ → Except EffError (List ConvergenceCurve × List ConvergenceCurve) × ℕ
  | 0 => (Except.ok ([], []), 0)
  | n + 1 =>
    match effLoop baseline_factory candidate_factory n with
    | (Except.error e, runs) => (Except.error e, runs)
    | (Except.ok (bcs, ccs), runs) =>
      match effRepeatStep baseline_factory candidate_factory n with
      | Except.error e => (Except.error e, runs)
      | Except.ok (bc, cc) => (Except.ok (bcs ++ [bc], ccs ++ [cc]), runs + 2)

/-- `EfficiencyComparisonTester.assert_better_efficiency`. The curve
alignment and `ConvergenceCurveComparator.get_log_efficiency_score` are
external (imported from `vizier.benchmarks`) and passed in as the scoring
function over the two accumulated curve lists. The second component of the
result counts executed benchmark runs. -/
def assert_better_efficiency (t : EfficiencyComparisonTester)
    (candidate_state_factory baseline_state_factory : BenchmarkStateFactory)
    (get_log_efficiency_score : List ConvergenceCurve → List ConvergenceCurve → ℚ)
    (score_threshold : ℚ) : Except EffError Unit × ℕ :=
  match effLoop baseline_state_factory candidate_state_factory t.num_repeats.toNat with
  | (Except.error e, runs) => (Except.error e, runs)
  | (Except.ok (baseline_curves, candidate_curves), runs) =>
    let log_eff_score := get_log_efficiency_score baseline_curves candidate_curves
    if log_eff_score < score_threshold then
      (Except.error (EffError.failedComparisonTest log_eff_score score_threshold
        candidate_state_factory.description baseline_state_factory.description
        t.num_trials t.num_repeats), runs)
    else
      (Except.ok (), runs)

/-- The simple-regret tester's configuration. The attrs validators check
nothing about the four count fields beyond their int typing; `alpha` alone
carries validators (`ge(0)` and `le(0.1)`). -/
structure SimpleRegretComparisonTester where
  baseline_num_trials : Int
  candidate_num_trials : Int
  baseline_num_repeats : Int
  candidate_num_repeats : Int
  alpha : ℚ
deriving DecidableEq

/-- Construction of `SimpleRegretComparisonTester`: the attrs validators
accept exactly `0 ≤ alpha` and `alpha ≤ 0.1` and constrain nothing else. -/
def SimpleRegretComparisonTester.mk?
    (baseline_num_trials candidate_num_trials : Int)
    (baseline_num_repeats candidate_num_repeats : Int)
    (alpha : ℚ) : Option SimpleRegretComparisonTester :=
  if 0 ≤ alpha ∧ alpha ≤ 1/10 then
    some ⟨baseline_num_trials, candidate_num_trials,
          baseline_num_repeats, candidate_num_repeats, alpha⟩
  else
    none

/-- Arithmetic mean, as `np.mean` computes it. -/
def listMean (xs : List ℚ) : ℚ := xs.sum / xs.length

/-- Population variance, the square of `np.std`. The summary keeps the
square so that the embedding stays within ℚ; the standard deviation the
source formats is its (nonnegative) square root. -/
def listVarianceOfStd (xs : List ℚ) : ℚ :=
  (xs.map (fun x => (x - listMean xs) ^ 2)).sum / xs.length

/-- The data `_generate_summary` formats into the summary message: p-value,
alpha, both sample sets' means and standard deviations (kept as their
squares, see `listVarianceOfStd`), and both raw sample lists. -/
structure Summary where
  p_value : ℚ
  alpha : ℚ
  baseline_mean : ℚ
  baseline_std_sq : ℚ
  candidate_mean : ℚ
  candidate_std_sq : ℚ
  baseline_samples : List ℚ
  candidate_samples : List ℚ
deriving DecidableEq

/-- `SimpleRegretComparisonTester._generate_summary`. -/
def generate_summary (t : SimpleRegretComparisonTester)
    (baseline_simple_regrets candidate_simple_regrets : List ℚ)
    (p_value : ℚ) : Summary :=
  ⟨p_value, t.alpha,
   listMean baseline_simple_regrets, listVarianceOfStd baseline_simple_regrets,
   listMean candidate_simple_regrets, listVarianceOfStd candidate_simple_regrets,
   baseline_simple_regrets, candidate_simple_regrets⟩

/-- `FailedSimpleRegretConvergenceTestError`, carrying the summary it is
raised with. -/
structure FailedSimpleRegretConvergenceTestError where
  summary : Summary
deriving DecidableEq

/-- The sample-collection loop shared by both entry points: one sample per
repeat, appended in repeat order; `none` aborts the whole call (a Python
crash while extracting the sample). -/
def collectSamples : ℕ → (ℕ → Option ℚ) → Option (List ℚ)
  | 0, _ => some []
  | n + 1, f =>
    (collectSamples n f).bind fun xs => (f n).map fun x => xs ++ [x]

/-- The sample one optimizer repeat yields:
`trial[0].final_measurement.metrics['acquisition'].value` of the trial list
returned by `optimizer.optimize(...)`; `none` models the IndexError /
KeyError when the list is empty or the metric absent. -/
def acquisitionOf (trials : List Trial) : Option ℚ :=
  match trials with
  | [] => none
  | t :: _ => findMetric "acquisition" t.final_measurement.metrics

/-- `SimpleRegretComparisonTester.assert_optimizer_better_simple_regret`.
The vectorized optimizers are external; `baseline_optimize k` is the trial
list the baseline optimizer returns on the k-th repeat (likewise for the
candidate), and `t_test_less_mean_score` is the external statistical test.
`some (Except.ok [s])` models logging the PASSED summary `s` and returning
normally; `some (Except.error e)` models raising
`FailedSimpleRegretConvergenceTestError`; outer `none` models a crash while
collecting samples. -/
def assert_optimizer_better_simple_regret (t : SimpleRegretComparisonTester)
    (baseline_optimize candidate_optimize : ℕ → List Trial)
    (t_test_less_mean_score : List ℚ → List ℚ → ℚ) :
    Option (Except FailedSimpleRegretConvergenceTestError (List Summary)) :=
  (collectSamples t.baseline_num_repeats.toNat
      (fun k => acquisitionOf (baseline_optimize k))).bind
    fun baseline_simple_regrets =>
  (collectSamples t.candidate_num_repeats.toNat
      (fun k => acquisitionOf (candidate_optimize k))).bind
    fun candidate_simple_regrets =>
  let p_value := t_test_less_mean_score baseline_simple_regrets
    candidate_simple_regrets
  let msg := generate_summary t baseline_simple_regrets
    candidate_simple_regrets p_value
  if p_value ≤ t.alpha then
    some (Except.ok [msg])
  else
    some (Except.error ⟨msg⟩)

/-- One benchmark state of the simple-regret path, summarized by the data
`_run_one` reads from it: the single objective metric's name, and the best
trial `GetBestTrials(count=1)` returns after the runner has performed a
given number of generate-and-evaluate cycles of a given batch size (runner
and state internals are external collaborators); `none` stands for an empty
best-trial list. -/
structure RegretBenchmarkState where
  single_objective_metric_name : String
  bestTrialAfterCycles : ℕ → ℕ → Option Trial

/-- The number of generate-and-evaluate cycles `_run_one` configures its
`BenchmarkRunner` with: `num_trials // batch_size`, Python floor
division. -/
def runOneNumCycles (num_trials batch_size : Int) : Int :=
  Int.fdiv num_trials batch_size

/-- The total evaluation budget one `_run_one` call spends: `batch_size`
evaluations per cycle for `num_trials // batch_size` cycles. -/
def runOneEvaluations (num_trials batch_size : Int) : Int :=
  batch_size * runOneNumCycles num_trials batch_size

/-- `_run_one` inside `assert_benchmark_state_better_simple_regret`: run
the runner for `num_trials // batch_size` cycles, then return
`best_trial.final_measurement.metrics[metric_name].value` of the best
trial; `none` models the IndexError / KeyError when no best trial exists
or the metric is absent. -/
def runOne (st : RegretBenchmarkState) (num_trials batch_size : Int) :
    Option ℚ :=
  match st.bestTrialAfterCycles (runOneNumCycles num_trials batch_size).toNat
      batch_size.toNat with
  | none => none
  | some best_trial =>
    findMetric st.single_objective_metric_name best_trial.final_measurement.metrics

/-- `SimpleRegretComparisonTester.assert_benchmark_state_better_simple_regret`.
`baseline_factory k` is the benchmark state the baseline factory produces
on the k-th repeat (likewise for the candidate); the tail after sample
collection is the same p-value test as the optimizer entry point. -/
def assert_benchmark_state_better_simple_regret
    (t : SimpleRegretComparisonTester)
    (baseline_factory candidate_factory : ℕ → RegretBenchmarkState)
    (baseline_batch_size candidate_batch_size : Int)
    (t_test_less_mean_score : List ℚ → List ℚ → ℚ) :
    Option (Except FailedSimpleRegretConvergenceTestError (List Summary)) :=
  (collectSamples t.baseline_num_repeats.toNat
      (fun k => runOne (baseline_factory k) t.baseline_num_trials
        baseline_batch_size)).bind
    fun baseline_simple_regrets =>
  (collectSamples t.candidate_num_repeats.toNat
      (fun k => runOne (candidate_factory k) t.candidate_num_trials
        candidate_batch_size)).bind
    fun candidate_simple_regrets =>
  let p_value := t_test_less_mean_score baseline_simple_regrets
    candidate_simple_regrets
  let msg := generate_summary t baseline_simple_regrets
    candidate_simple_regrets p_value
  if p_value ≤ t.alpha then
    some (Except.ok [msg])
  else
    some (Except.error ⟨msg⟩)

/-- Fixture: a single-metric problem statement. -/
def exStatementA : ProblemStatement :=
  ⟨[⟨"m", ObjectiveMetricGoal.MAXIMIZE⟩]⟩

/-- Fixture: a different single-metric problem statement. -/
def exStatementB : ProblemStatement :=
  ⟨[⟨"m2", ObjectiveMetricGoal.MAXIMIZE⟩]⟩

/-- Fixture: a two-metric (multi-objective) problem statement. -/
def exStatementMulti : ProblemStatement :=
  ⟨[⟨"m", ObjectiveMetricGoal.MAXIMIZE⟩,
    ⟨"m2", ObjectiveMetricGoal.MAXIMIZE⟩]⟩

/-- Fixture: a benchmark state over `exStatementA` with a one-point curve. -/
def exState : BenchmarkState := ⟨exStatementA, [(1, 2)]⟩

/-- Fixture: a factory producing `exState` on every invocation. -/
def exFactoryA (d : String) : BenchmarkStateFactory := ⟨d, fun _ => exState⟩

/-- Fixture: a factory producing states over `exStatementB`. -/
def exFactoryB (d : String) : BenchmarkStateFactory :=
  ⟨d, fun _ => ⟨exStatementB, []⟩⟩

/-- Fixture: a factory producing multi-objective states. -/
def exFactoryMulti (d : String) : BenchmarkStateFactory :=
  ⟨d, fun _ => ⟨exStatementMulti, []⟩⟩

/-- Fixture: a regret tester with one repeat per side and alpha 0.05. -/
def exRegretTester : SimpleRegretComparisonTester := ⟨1, 1, 1, 1, 1/20⟩

/-- Fixture: a regret tester with zero repeats per side and alpha 0.05. -/
def exZeroRepeatTester : SimpleRegretComparisonTester := ⟨1, 1, 0, 0, 1/20⟩

/-- Fixture: an optimizer returning one trial with acquisition value 1. -/
def exOptimize : ℕ → List Trial := fun _ => [⟨⟨[("acquisition", 1)]⟩⟩]

/-- Fixture: a benchmark state for the regret path whose best trial always
carries metric `m` with value 1. -/
def exRegretState : RegretBenchmarkState :=
  ⟨"m", fun _ _ => some ⟨⟨[("m", 1)]⟩⟩⟩

end Vizier.ComparatorRunner

namespace Vizier.ScalarizingDesigner

/-- Fixture mirroring the two-metric maximization problem of the tests. -/
def exampleInfo : List MetricInformation :=
  [⟨"metric1", ObjectiveMetricGoal.MAXIMIZE⟩,
   ⟨"metric2", ObjectiveMetricGoal.MAXIMIZE⟩]

/-- Fixture mirroring the test trial completed with only `metric1`. -/
def exampleTrial : CompletedTrial :=
  ⟨⟨[("metric1", MetricValue.val (2/5))]⟩⟩

/-- A declared metric that is absent from (or NaN in) a measurement makes
the collected value vector unavailable. -/
theorem collectMetricValues_none_of_missing (info : List MetricInformation)
    (m : Measurement) (mi : MetricInformation) (hmi : mi ∈ info)
    (hmiss : findMetric mi.name m.metrics = none) :
    collectMetricValues info m = none := by
  induction info with
  | nil => cases hmi
  | cons mj rest ih =>
    rcases List.mem_cons.mp hmi with heq | htl
    · subst heq
      simp [collectMetricValues, hmiss]
    · cases h : (findMetric mj.name m.metrics).bind MetricValue.toRat? with
      | none => simp [collectMetricValues, h]
      | some q => simp [collectMetricValues, h, ih htl]

end Vizier.ScalarizingDesigner

namespace Vizier.ScalarizingDesigner

/-- C7: `HyperVolumeScalarization` with weights [0.1, 0.2] applied to the
value vector [3.0, 4.5] returns 22.5. -/
theorem hypervolume_reference_example :
    HyperVolumeScalarization [1/10, 1/5] [3, 9/2] = 45/2 := by
  norm_num [HyperVolumeScalarization, HyperVolumeScalarization.listMin]

/-- C8: for weight and value vectors of equal length,
`LinearScalarization` computes exactly the dot product `dot(w, v)`, and on
the reference example (w = [0.1, 0.2], v = [3.0, 4.5]) it yields 1.2. -/
theorem linear_scalarization_is_dot_product (w v : List ℚ)
    (h : w.length = v.length) :
    LinearScalarization w v = dotProduct w v ∧
      LinearScalarization [1/10, 1/5] [3, 9/2] = 6/5 := by
  constructor
  · clear h
    induction w generalizing v with
    | nil => simp [LinearScalarization, dotProduct]
    | cons a ws ih =>
      cases v with
      | nil => simp [LinearScalarization, dotProduct]
      | cons b vs => simp [LinearScalarization, dotProduct, ih vs]
  · norm_num [LinearScalarization]

/-- Witness for C8 at the reference example. -/
theorem linear_scalarization_is_dot_product_witness :
    (([1/10, 1/5] : List ℚ).length = ([3, 9/2] : List ℚ).length) ∧
    (LinearScalarization [1/10, 1/5] [3, 9/2] =
        dotProduct [1/10, 1/5] [3, 9/2] ∧
      LinearScalarization [1/10, 1/5] [3, 9/2] = 6/5) :=
  ⟨by simp, linear_scalarization_is_dot_product _ _ (by simp)⟩

/-- C6: when a completed trial's final measurement is missing a declared
objective metric, `update` attaches the `scalarized` metric with value NaN
(present, not absent) to that trial, and the mutated trial is among those
forwarded to the wrapped designer's `update`; nothing is raised (`update`
is total). -/
theorem scalarizing_update_missing_metric_nan
    (info : List MetricInformation) (scal : List ℚ → ℚ)
    (completed : List CompletedTrial) (t : CompletedTrial)
    (ht : t ∈ completed) (mi : MetricInformation) (hmi : mi ∈ info)
    (hmiss : findMetric mi.name t.final_measurement.metrics = none) :
    findMetric "scalarized" (updateTrial info scal t).final_measurement.metrics
      = some MetricValue.nan ∧
    updateTrial info scal t ∈ update info scal completed := by
  refine ⟨?_, List.mem_map_of_mem _ ht⟩
  have hnone : collectMetricValues info t.final_measurement = none :=
    collectMetricValues_none_of_missing info t.final_measurement mi hmi hmiss
  simp [updateTrial, findMetric, scalarizedValue, hnone]

/-- Witness for C6, mirroring `test_missing_metrics`: a trial completed
with only `metric1` on the two-metric problem gets `scalarized` = NaN. -/
theorem scalarizing_update_missing_metric_nan_witness :
    (exampleTrial ∈ [exampleTrial] ∧
      (⟨"metric2", ObjectiveMetricGoal.MAXIMIZE⟩ : MetricInformation) ∈
        exampleInfo ∧
      findMetric "metric2" exampleTrial.final_measurement.metrics = none) ∧
    (findMetric "scalarized"
        (updateTrial exampleInfo (HyperVolumeScalarization [1, 1])
          exampleTrial).final_measurement.metrics = some MetricValue.nan ∧
      updateTrial exampleInfo (HyperVolumeScalarization [1, 1]) exampleTrial ∈
        update exampleInfo (HyperVolumeScalarization [1, 1]) [exampleTrial]) :=
  ⟨⟨by simp, by simp [exampleInfo], by simp [exampleTrial, findMetric]⟩,
   scalarizing_update_missing_metric_nan exampleInfo
     (HyperVolumeScalarization [1, 1]) [exampleTrial] exampleTrial (by simp)
     ⟨"metric2", ObjectiveMetricGoal.MAXIMIZE⟩ (by simp [exampleInfo])
     (by simp [exampleTrial, findMetric])⟩

end Vizier.ScalarizingDesigner

namespace Vizier.ComparatorRunner

/-- A successfully collected sample list has one sample per repeat. -/
theorem collectSamples_length (n : ℕ) (f : ℕ → Option ℚ) (l : List ℚ)
    (h : collectSamples n f = some l) : l.length = n := by
  induction n generalizing l with
  | zero =>
    simp only [collectSamples, Option.some.injEq] at h
    simp [← h]
  | succ n ih =>
    simp only [collectSamples] at h
    rcases Option.bind_eq_some.mp h with ⟨xs, hxs, hmap⟩
    rcases Option.map_eq_some'.mp hmap with ⟨x, hx, hl⟩
    simp [← hl, ih xs hxs]

end Vizier.ComparatorRunner

namespace Vizier.ComparatorRunner

/-- C4 (amended): construction of `SimpleRegretComparisonTester` succeeds
exactly when `0 ≤ alpha ≤ 0.1`; the interval is closed at 0, so
`alpha = 0` is accepted while `alpha < 0` and `alpha > 0.1` fail. -/
theorem alpha_validation_interval
    (baseline_num_trials candidate_num_trials : Int)
    (baseline_num_repeats candidate_num_repeats : Int) (alpha : ℚ) :
    (SimpleRegretComparisonTester.mk? baseline_num_trials candidate_num_trials
        baseline_num_repeats candidate_num_repeats alpha).isSome ↔
      (0 ≤ alpha ∧ alpha ≤ 1/10) := by
  by_cases h : 0 ≤ alpha ∧ alpha ≤ 1/10 <;>
    simp [SimpleRegretComparisonTester.mk?, h]

/-- Counterexample to C4 as stated: `alpha = 0` lies outside the claimed
half-open interval (0, 0.1], yet construction succeeds, because the attrs
validator is `ge(0)`, not a strict bound. -/
theorem alpha_zero_accepted_cex :
    SimpleRegretComparisonTester.mk? 1 1 1 1 0 = some ⟨1, 1, 1, 1, 0⟩ := by
  norm_num [SimpleRegretComparisonTester.mk?]

/-- If every repeat before `i` passes its checks, the loop reaches repeat
`i` having executed exactly two benchmark runs per earlier repeat. -/
theorem effLoop_ok_upto (bf cf : BenchmarkStateFactory) (i : ℕ)
    (h : ∀ j, j < i → ∃ c, effRepeatStep bf cf j = Except.ok c) :
    ∃ bcs ccs, effLoop bf cf i = (Except.ok (bcs, ccs), 2 * i) := by
  induction i with
  | zero => exact ⟨[], [], rfl⟩
  | succ i ih =>
    obtain ⟨bcs, ccs, hloop⟩ := ih (fun j hj => h j (Nat.lt_succ_of_lt hj))
    obtain ⟨⟨bc, cc⟩, hstep⟩ := h i (Nat.lt_succ_self i)
    refine ⟨bcs ++ [bc], ccs ++ [cc], ?_⟩
    simp [effLoop, hloop, hstep, Nat.mul_succ]

/-- Once the loop has raised, every longer loop returns the same error and
run count: the failing comparison is not retried. -/
theorem effLoop_error_propagates (bf cf : BenchmarkStateFactory)
    (m : ℕ) (e : EffError) (r : ℕ)
    (h : effLoop bf cf m = (Except.error e, r)) :
    ∀ n, m ≤ n → effLoop bf cf n = (Except.error e, r) := by
  intro n hn
  induction n with
  | zero =>
    have hm : m = 0 := Nat.le_zero.mp hn
    simpa [hm] using h
  | succ n ih =>
    rcases Nat.lt_or_ge m (n + 1) with hlt | hge
    · have hle : m ≤ n := Nat.lt_succ_iff.mp hlt
      simp only [effLoop, ih hle]
    · have hm : m = n + 1 := Nat.le_antisymm hn hge
      simpa [hm] using h

/-- If the checks of repeat `i` raise after every earlier repeat passed,
the whole loop raises that error having executed exactly the two runs of
each earlier repeat and none of repeat `i`. -/
theorem effLoop_error_at (bf cf : BenchmarkStateFactory) (i : ℕ)
    (e : EffError)
    (hok : ∀ j, j < i → ∃ c, effRepeatStep bf cf j = Except.ok c)
    (herr : effRepeatStep bf cf i = Except.error e) :
    ∀ n, i < n → effLoop bf cf n = (Except.error e, 2 * i) := by
  obtain ⟨bcs, ccs, hloop⟩ := effLoop_ok_upto bf cf i hok
  have hfirst : effLoop bf cf (i + 1) = (Except.error e, 2 * i) := by
    simp [effLoop, hloop, herr]
  intro n hn
  exact effLoop_error_propagates bf cf (i + 1) e (2 * i) hfirst n hn

/-- `assert_better_efficiency` propagates a loop error unchanged. -/
theorem assert_better_efficiency_of_effLoop_error
    (t : EfficiencyComparisonTester)
    (cf bf : BenchmarkStateFactory)
    (sf : List ConvergenceCurve → List ConvergenceCurve → ℚ)
    (thr : ℚ) (e : EffError) (runs : ℕ)
    (h : effLoop bf cf t.num_repeats.toNat = (Except.error e, runs)) :
    assert_better_efficiency t cf bf sf thr = (Except.error e, runs) := by
  simp [assert_better_efficiency, h]

/-- C2: once the repeated runs completed, `assert_better_efficiency` raises
`FailedComparisonTestError` — carrying the log-efficiency score, the
threshold, both factory descriptions and the tester configuration — exactly
when the score is below `score_threshold`, and otherwise returns normally
with no distinguished success value. -/
theorem efficiency_score_threshold_decides_raise
    (t : EfficiencyComparisonTester) (cf bf : BenchmarkStateFactory)
    (sf : List ConvergenceCurve → List ConvergenceCurve → ℚ) (thr : ℚ)
    (bcs ccs : List ConvergenceCurve) (runs : ℕ)
    (h : effLoop bf cf t.num_repeats.toNat = (Except.ok (bcs, ccs), runs)) :
    (sf bcs ccs < thr →
      assert_better_efficiency t cf bf sf thr =
        (Except.error (EffError.failedComparisonTest (sf bcs ccs) thr
          cf.description bf.description t.num_trials t.num_repeats), runs)) ∧
    (¬ sf bcs ccs < thr →
      assert_better_efficiency t cf bf sf thr = (Except.ok (), runs)) := by
  constructor
  · intro hlt
    simp [assert_better_efficiency, h, hlt]
  · intro hge
    simp [assert_better_efficiency, h, hge]

/-- Witness for C2: one repeat of identical single-metric states, constant
score 0 against threshold 0, so the call returns normally. -/
theorem efficiency_score_threshold_decides_raise_witness :
    (effLoop (exFactoryA "baseline") (exFactoryA "candidate")
        (⟨1, 1⟩ : EfficiencyComparisonTester).num_repeats.toNat =
      (Except.ok ([[((1 : ℚ), (2 : ℚ))]], [[((1 : ℚ), (2 : ℚ))]]), 2)) ∧
    (((0 : ℚ) < 0 →
      assert_better_efficiency ⟨1, 1⟩ (exFactoryA "candidate")
          (exFactoryA "baseline") (fun _ _ => 0) 0 =
        (Except.error (EffError.failedComparisonTest 0 0
          (exFactoryA "candidate").description
          (exFactoryA "baseline").description 1 1), 2)) ∧
    (¬ (0 : ℚ) < 0 →
      assert_better_efficiency ⟨1, 1⟩ (exFactoryA "candidate")
          (exFactoryA "baseline") (fun _ _ => 0) 0 = (Except.ok (), 2))) :=
  ⟨by simp [effLoop, effRepeatStep, exFactoryA, exState, exStatementA],
   efficiency_score_threshold_decides_raise ⟨1, 1⟩ (exFactoryA "candidate")
     (exFactoryA "baseline") (fun _ _ => 0) 0 [[(1, 2)]] [[(1, 2)]] 2
     (by simp [effLoop, effRepeatStep, exFactoryA, exState, exStatementA])⟩

/-- Counterexample to C3 as stated: constructing the tester succeeds — the
constructor takes only `num_trials` and `num_repeats` and sees no problem
statements — and the mismatch error is raised only when
`assert_better_efficiency` executes (there with zero benchmark runs). -/
theorem efficiency_statement_mismatch_not_construction_time_cex :
    EfficiencyComparisonTester.mk? 5 3 = some ⟨5, 3⟩ ∧
    assert_better_efficiency ⟨5, 3⟩ (exFactoryA "candidate")
        (exFactoryB "baseline") (fun _ _ => 0) 0 =
      (Except.error (EffError.differentStatements exStatementB exStatementA),
        0) := by
  constructor
  · rfl
  · simp [assert_better_efficiency, effLoop, effRepeatStep, exFactoryA,
      exFactoryB, exState, exStatementA, exStatementB]

/-- C3 (amended): a baseline/candidate problem-statement mismatch raises
during the first repeat of `assert_better_efficiency` — not at tester
construction, which takes no problem statements — before any benchmark run
executes, and the loop is aborted rather than retried. -/
theorem efficiency_statement_mismatch_raises_before_runs
    (t : EfficiencyComparisonTester) (cf bf : BenchmarkStateFactory)
    (sf : List ConvergenceCurve → List ConvergenceCurve → ℚ) (thr : ℚ)
    (hrep : 1 ≤ t.num_repeats)
    (hsingle : (bf.make 0).problem_statement.metric_information.length ≤ 1)
    (hne : (bf.make 0).problem_statement ≠ (cf.make 0).problem_statement) :
    assert_better_efficiency t cf bf sf thr =
      (Except.error (EffError.differentStatements
        (bf.make 0).problem_statement (cf.make 0).problem_statement), 0) := by
  have hnot : ¬ (bf.make 0).problem_statement.metric_information.length > 1 :=
    by omega
  have hstep : effRepeatStep bf cf 0 =
      Except.error (EffError.differentStatements
        (bf.make 0).problem_statement (cf.make 0).problem_statement) := by
    simp [effRepeatStep, hnot, hne]
  have hloop := effLoop_error_at bf cf 0 _
    (fun j hj => absurd hj (Nat.not_lt_zero j)) hstep
    t.num_repeats.toNat (by omega)
  simpa using assert_better_efficiency_of_effLoop_error t cf bf sf thr _ 0
    (by simpa using hloop)

/-- Witness for C3 (amended) at the concrete mismatched factories. -/
theorem efficiency_statement_mismatch_raises_before_runs_witness :
    ((1 : Int) ≤ (⟨5, 3⟩ : EfficiencyComparisonTester).num_repeats ∧
      ((exFactoryB "baseline").make 0).problem_statement.metric_information.length ≤ 1 ∧
      ((exFactoryB "baseline").make 0).problem_statement ≠
        ((exFactoryA "candidate").make 0).problem_statement) ∧
    assert_better_efficiency ⟨5, 3⟩ (exFactoryA "candidate")
        (exFactoryB "baseline") (fun _ _ => 0) 0 =
      (Except.error (EffError.differentStatements
        ((exFactoryB "baseline").make 0).problem_statement
        ((exFactoryA "candidate").make 0).problem_statement), 0) :=
  ⟨⟨by decide, by decide, by decide⟩,
   efficiency_statement_mismatch_raises_before_runs ⟨5, 3⟩
     (exFactoryA "candidate") (exFactoryB "baseline") (fun _ _ => 0) 0
     (by decide) (by decide) (by decide)⟩

/-- C5: when the repeat loop reaches a repeat whose problem statement is
multi-objective, `assert_better_efficiency` raises a configuration
`ValueError` with that repeat's benchmarks never run (only the two runs of
each earlier repeat executed): the unsupported-multimetric error when the
baseline statement has more than one metric, and the statement-mismatch
error when the baseline is single-metric but the candidate is
multi-objective — in neither case is a metric silently picked. -/
theorem multiobjective_fails_fast_before_runs
    (t : EfficiencyComparisonTester) (cf bf : BenchmarkStateFactory)
    (sf : List ConvergenceCurve → List ConvergenceCurve → ℚ) (thr : ℚ)
    (i : ℕ) (hi : i < t.num_repeats.toNat)
    (hok : ∀ j, j < i → ∃ c, effRepeatStep bf cf j = Except.ok c) :
    ((bf.make i).problem_statement.metric_information.length > 1 →
      assert_better_efficiency t cf bf sf thr =
        (Except.error EffError.multimetricNotSupported, 2 * i)) ∧
    ((bf.make i).problem_statement.metric_information.length ≤ 1 →
      (cf.make i).problem_statement.metric_information.length > 1 →
      assert_better_efficiency t cf bf sf thr =
        (Except.error (EffError.differentStatements
          (bf.make i).problem_statement (cf.make i).problem_statement),
          2 * i)) := by
  constructor
  · intro hmulti
    have hstep : effRepeatStep bf cf i =
        Except.error EffError.multimetricNotSupported := by
      simp [effRepeatStep, hmulti]
    exact assert_better_efficiency_of_effLoop_error t cf bf sf thr _ _
      (effLoop_error_at bf cf i _ hok hstep t.num_repeats.toNat hi)
  · intro hsingle hcand
    have hne : (bf.make i).problem_statement ≠
        (cf.make i).problem_statement := by
      intro heq
      have hlen := congrArg (fun s => s.metric_information.length) heq
      simp only at hlen
      omega
    have hnot : ¬ (bf.make i).problem_statement.metric_information.length > 1 :=
      by omega
    have hstep : effRepeatStep bf cf i =
        Except.error (EffError.differentStatements
          (bf.make i).problem_statement (cf.make i).problem_statement) := by
      simp [effRepeatStep, hnot, hne]
    exact assert_better_efficiency_of_effLoop_error t cf bf sf thr _ _
      (effLoop_error_at bf cf i _ hok hstep t.num_repeats.toNat hi)

/-- Witness for C5: a multi-objective baseline at the first repeat. -/
theorem multiobjective_fails_fast_before_runs_witness :
    ((0 : ℕ) < (⟨1, 1⟩ : EfficiencyComparisonTester).num_repeats.toNat ∧
      (∀ j, j < 0 → ∃ c, effRepeatStep (exFactoryMulti "baseline")
        (exFactoryA "candidate") j = Except.ok c)) ∧
    ((((exFactoryMulti "baseline").make 0).problem_statement.metric_information.length > 1 →
      assert_better_efficiency ⟨1, 1⟩ (exFactoryA "candidate")
          (exFactoryMulti "baseline") (fun _ _ => 0) 0 =
        (Except.error EffError.multimetricNotSupported, 2 * 0)) ∧
    (((exFactoryMulti "baseline").make 0).problem_statement.metric_information.length ≤ 1 →
      ((exFactoryA "candidate").make 0).problem_statement.metric_information.length > 1 →
      assert_better_efficiency ⟨1, 1⟩ (exFactoryA "candidate")
          (exFactoryMulti "baseline") (fun _ _ => 0) 0 =
        (Except.error (EffError.differentStatements
          ((exFactoryMulti "baseline").make 0).problem_statement
          ((exFactoryA "candidate").make 0).problem_statement), 2 * 0))) :=
  ⟨⟨by decide, fun j hj => absurd hj (Nat.not_lt_zero j)⟩,
   multiobjective_fails_fast_before_runs ⟨1, 1⟩ (exFactoryA "candidate")
     (exFactoryMulti "baseline") (fun _ _ => 0) 0 0 (by decide)
     (fun j hj => absurd hj (Nat.not_lt_zero j))⟩

/-- C1: in both entry points of `SimpleRegretComparisonTester`, once the
t-test produced a p-value over the collected samples, a p-value at most
`alpha` logs the PASSED summary and returns normally, and a p-value above
`alpha` raises `FailedSimpleRegretConvergenceTestError`; either way the
summary carries the p-value, alpha, both sample means and standard
deviations (as their squares), and both raw sample lists. -/
theorem simple_regret_pvalue_decides_pass_or_raise :
    (∀ (t : SimpleRegretComparisonTester) (bo co : ℕ → List Trial)
        (tt : List ℚ → List ℚ → ℚ)
        (r : Except FailedSimpleRegretConvergenceTestError (List Summary)),
      assert_optimizer_better_simple_regret t bo co tt = some r →
      ∃ bs cs,
        collectSamples t.baseline_num_repeats.toNat
            (fun k => acquisitionOf (bo k)) = some bs ∧
        collectSamples t.candidate_num_repeats.toNat
            (fun k => acquisitionOf (co k)) = some cs ∧
        (tt bs cs ≤ t.alpha →
          r = Except.ok [generate_summary t bs cs (tt bs cs)]) ∧
        (¬ tt bs cs ≤ t.alpha →
          r = Except.error ⟨generate_summary t bs cs (tt bs cs)⟩) ∧
        generate_summary t bs cs (tt bs cs) =
          ⟨tt bs cs, t.alpha, listMean bs, listVarianceOfStd bs,
           listMean cs, listVarianceOfStd cs, bs, cs⟩) ∧
    (∀ (t : SimpleRegretComparisonTester)
        (bfac cfac : ℕ → RegretBenchmarkState) (bbs cbs : Int)
        (tt : List ℚ → List ℚ → ℚ)
        (r : Except FailedSimpleRegretConvergenceTestError (List Summary)),
      assert_benchmark_state_better_simple_regret t bfac cfac bbs cbs tt =
          some r →
      ∃ bs cs,
        collectSamples t.baseline_num_repeats.toNat
            (fun k => runOne (bfac k) t.baseline_num_trials bbs) = some bs ∧
        collectSamples t.candidate_num_repeats.toNat
            (fun k => runOne (cfac k) t.candidate_num_trials cbs) = some cs ∧
        (tt bs cs ≤ t.alpha →
          r = Except.ok [generate_summary t bs cs (tt bs cs)]) ∧
        (¬ tt bs cs ≤ t.alpha →
          r = Except.error ⟨generate_summary t bs cs (tt bs cs)⟩) ∧
        generate_summary t bs cs (tt bs cs) =
          ⟨tt bs cs, t.alpha, listMean bs, listVarianceOfStd bs,
           listMean cs, listVarianceOfStd cs, bs, cs⟩) := by
  constructor
  · intro t bo co tt r h
    simp only [assert_optimizer_better_simple_regret] at h
    cases hb : collectSamples t.baseline_num_repeats.toNat
        (fun k => acquisitionOf (bo k)) with
    | none => rw [hb] at h; simp at h
    | some bs =>
      rw [hb] at h
      simp only [Option.some_bind] at h
      cases hc : collectSamples t.candidate_num_repeats.toNat
          (fun k => acquisitionOf (co k)) with
      | none => rw [hc] at h; simp at h
      | some cs =>
        rw [hc] at h
        simp only [Option.some_bind] at h
        refine ⟨bs, cs, rfl, rfl, ?_, ?_, rfl⟩
        · intro hp
          rw [if_pos hp] at h
          exact (Option.some.inj h).symm
        · intro hp
          rw [if_neg hp] at h
          exact (Option.some.inj h).symm
  · intro t bfac cfac bbs cbs tt r h
    simp only [assert_benchmark_state_better_simple_regret] at h
    cases hb : collectSamples t.baseline_num_repeats.toNat
        (fun k => runOne (bfac k) t.baseline_num_trials bbs) with
    | none => rw [hb] at h; simp at h
    | some bs =>
      rw [hb] at h
      simp only [Option.some_bind] at h
      cases hc : collectSamples t.candidate_num_repeats.toNat
          (fun k => runOne (cfac k) t.candidate_num_trials cbs) with
      | none => rw [hc] at h; simp at h
      | some cs =>
        rw [hc] at h
        simp only [Option.some_bind] at h
        refine ⟨bs, cs, rfl, rfl, ?_, ?_, rfl⟩
        · intro hp
          rw [if_pos hp] at h
          exact (Option.some.inj h).symm
        · intro hp
          rw [if_neg hp] at h
          exact (Option.some.inj h).symm

/-- Witness for C1 at one repeat per side, acquisition value 1 and a t-test
constantly 0, so the p-value 0 is at most alpha = 0.05 and the call logs
PASSED. -/
theorem simple_regret_pvalue_decides_pass_or_raise_witness :
    (assert_optimizer_better_simple_regret exRegretTester exOptimize
        exOptimize (fun _ _ => 0) =
      some (Except.ok [generate_summary exRegretTester [1] [1] 0])) ∧
    (∃ bs cs,
      collectSamples exRegretTester.baseline_num_repeats.toNat
          (fun k => acquisitionOf (exOptimize k)) = some bs ∧
      collectSamples exRegretTester.candidate_num_repeats.toNat
          (fun k => acquisitionOf (exOptimize k)) = some cs ∧
      ((fun (_ _ : List ℚ) => (0 : ℚ)) bs cs ≤ exRegretTester.alpha →
        Except.ok (ε := FailedSimpleRegretConvergenceTestError)
            [generate_summary exRegretTester [1] [1] 0] =
          Except.ok [generate_summary exRegretTester bs cs 0]) ∧
      (¬ (fun (_ _ : List ℚ) => (0 : ℚ)) bs cs ≤ exRegretTester.alpha →
        Except.ok (ε := FailedSimpleRegretConvergenceTestError)
            [generate_summary exRegretTester [1] [1] 0] =
          Except.error ⟨generate_summary exRegretTester bs cs 0⟩) ∧
      generate_summary exRegretTester bs cs 0 =
        ⟨0, exRegretTester.alpha, listMean bs, listVarianceOfStd bs,
         listMean cs, listVarianceOfStd cs, bs, cs⟩) :=
  ⟨by norm_num [assert_optimizer_better_simple_regret, collectSamples,
      acquisitionOf, findMetric, exOptimize, exRegretTester],
   simple_regret_pvalue_decides_pass_or_raise.1 exRegretTester exOptimize
     exOptimize (fun _ _ => 0)
     (Except.ok [generate_summary exRegretTester [1] [1] 0])
     (by norm_num [assert_optimizer_better_simple_regret, collectSamples,
       acquisitionOf, findMetric, exOptimize, exRegretTester])⟩

/-- C9 (amended): the optimizer entry point hands the t-test exactly
`baseline_num_repeats` baseline samples and `candidate_num_repeats`
candidate samples (clamped at zero), one per repeat; the sample sets are
non-empty whenever the respective repeat counts are at least 1 — but the
repeat counts themselves are nowhere validated. -/
theorem samples_counts_match_repeats
    (t : SimpleRegretComparisonTester) (bo co : ℕ → List Trial)
    (tt : List ℚ → List ℚ → ℚ)
    (r : Except FailedSimpleRegretConvergenceTestError (List Summary))
    (h : assert_optimizer_better_simple_regret t bo co tt = some r) :
    ∃ bs cs,
      collectSamples t.baseline_num_repeats.toNat
          (fun k => acquisitionOf (bo k)) = some bs ∧
      collectSamples t.candidate_num_repeats.toNat
          (fun k => acquisitionOf (co k)) = some cs ∧
      bs.length = t.baseline_num_repeats.toNat ∧
      cs.length = t.candidate_num_repeats.toNat ∧
      (1 ≤ t.baseline_num_repeats → bs ≠ []) ∧
      (1 ≤ t.candidate_num_repeats → cs ≠ []) := by
  simp only [assert_optimizer_better_simple_regret] at h
  cases hb : collectSamples t.baseline_num_repeats.toNat
      (fun k => acquisitionOf (bo k)) with
  | none => rw [hb] at h; simp at h
  | some bs =>
    rw [hb] at h
    simp only [Option.some_bind] at h
    cases hc : collectSamples t.candidate_num_repeats.toNat
        (fun k => acquisitionOf (co k)) with
    | none => rw [hc] at h; simp at h
    | some cs =>
      have hlb := collectSamples_length _ _ _ hb
      have hlc := collectSamples_length _ _ _ hc
      refine ⟨bs, cs, rfl, rfl, hlb, hlc, ?_, ?_⟩
      · intro hrep
        have : 0 < bs.length := by omega
        exact List.ne_nil_of_length_pos this
      · intro hrep
        have : 0 < cs.length := by omega
        exact List.ne_nil_of_length_pos this

/-- Witness for C9 (amended) at one repeat per side. -/
theorem samples_counts_match_repeats_witness :
    (assert_optimizer_better_simple_regret exRegretTester exOptimize
        exOptimize (fun _ _ => 0) =
      some (Except.ok [generate_summary exRegretTester [1] [1] 0])) ∧
    (∃ bs cs,
      collectSamples exRegretTester.baseline_num_repeats.toNat
          (fun k => acquisitionOf (exOptimize k)) = some bs ∧
      collectSamples exRegretTester.candidate_num_repeats.toNat
          (fun k => acquisitionOf (exOptimize k)) = some cs ∧
      bs.length = exRegretTester.baseline_num_repeats.toNat ∧
      cs.length = exRegretTester.candidate_num_repeats.toNat ∧
      (1 ≤ exRegretTester.baseline_num_repeats → bs ≠ []) ∧
      (1 ≤ exRegretTester.candidate_num_repeats → cs ≠ [])) :=
  ⟨by norm_num [assert_optimizer_better_simple_regret, collectSamples,
      acquisitionOf, findMetric, exOptimize, exRegretTester],
   samples_counts_match_repeats exRegretTester exOptimize exOptimize
     (fun _ _ => 0) (Except.ok [generate_summary exRegretTester [1] [1] 0])
     (by norm_num [assert_optimizer_better_simple_regret, collectSamples,
       acquisitionOf, findMetric, exOptimize, exRegretTester])⟩

/-- Counterexample to C9 as stated: a tester with both repeat counts 0
constructs successfully (nothing validates the counts) and hands the
statistical test two empty sample lists — there the constant-1 p-value
exceeds alpha and the raised summary records the empty samples. -/
theorem zero_repeats_empty_samples_cex :
    SimpleRegretComparisonTester.mk? 1 1 0 0 (1/20) =
        some exZeroRepeatTester ∧
    exZeroRepeatTester.baseline_num_repeats = 0 ∧
    assert_optimizer_better_simple_regret exZeroRepeatTester exOptimize
        exOptimize (fun _ _ => 1) =
      some (Except.error ⟨generate_summary exZeroRepeatTester [] [] 1⟩) := by
  refine ⟨?_, rfl, ?_⟩
  · norm_num [SimpleRegretComparisonTester.mk?, exZeroRepeatTester]
  · norm_num [assert_optimizer_better_simple_regret, collectSamples,
      exZeroRepeatTester]

/-- C10: `_run_one` configures its runner for
`num_trials // batch_size` generate-and-evaluate cycles of `batch_size`
trials each, so its evaluation budget is `batch_size * (num_trials //
batch_size)`: never more than `num_trials`, strictly less whenever
`batch_size` does not divide `num_trials`, and zero when `batch_size`
exceeds `num_trials`. -/
theorem run_one_budget_floor (num_trials batch_size : Int)
    (hn : 0 ≤ num_trials) (hb : 1 ≤ batch_size) :
    runOneEvaluations num_trials batch_size =
      batch_size * Int.fdiv num_trials batch_size ∧
    runOneEvaluations num_trials batch_size ≤ num_trials ∧
    (¬ batch_size ∣ num_trials →
      runOneEvaluations num_trials batch_size < num_trials) ∧
    (num_trials < batch_size → runOneEvaluations num_trials batch_size = 0) := by
  have hfd : Int.fdiv num_trials batch_size = num_trials / batch_size :=
    Int.fdiv_eq_ediv _ (by omega)
  have h1 : batch_size * (num_trials / batch_size) + num_trials % batch_size
      = num_trials := Int.ediv_add_emod _ _
  have h2 : 0 ≤ num_trials % batch_size := Int.emod_nonneg _ (by omega)
  refine ⟨rfl, ?_, ?_, ?_⟩
  · simp only [runOneEvaluations, runOneNumCycles, hfd]
    omega
  · intro hnd
    have h3 : num_trials % batch_size ≠ 0 :=
      fun h0 => hnd (Int.dvd_of_emod_eq_zero h0)
    simp only [runOneEvaluations, runOneNumCycles, hfd]
    omega
  · intro hlt
    have h0 : num_trials / batch_size = 0 := Int.ediv_eq_zero_of_lt hn hlt
    simp only [runOneEvaluations, runOneNumCycles, hfd, h0, mul_zero]

/-- Witness for C10 at 5 trials with batch size 2: 4 of the 5 budgeted
evaluations run. -/
theorem run_one_budget_floor_witness :
    ((0 : Int) ≤ 5 ∧ (1 : Int) ≤ 2) ∧
    (runOneEvaluations 5 2 = 2 * Int.fdiv 5 2 ∧
      runOneEvaluations 5 2 ≤ 5 ∧
      (¬ (2 : Int) ∣ 5 → runOneEvaluations 5 2 < 5) ∧
      ((5 : Int) < 2 → runOneEvaluations 5 2 = 0)) :=
  ⟨by decide, run_one_budget_floor 5 2 (by decide) (by decide)⟩

end Vizier.ComparatorRunner
